import Mathlib

/-!
Verification of the natural-language specification of `ens::AdaptiveStepsize`
(`include/ensmallen_bits/bigbatch_sgd/adaptive_stepsize.hpp`) against a shallow
embedding of the code.

Modelling choices, shared by all definitions below:

* `arma::mat` values (`iterate`, `gradient`, `iteratePrev`, ...) are modelled as
  n-by-1 column matrices, i.e. functions `Fin n → α`.  For a column matrix,
  `arma::norm(X, 2)` is the Euclidean norm and
  `arma::trace(arma::trans(a) * b)` is the dot product, so the embedding of the
  norm and trace expressions below is exact for this shape.
* `double` arithmetic is idealised as exact arithmetic: generic over a
  `LinearOrderedField` where the code needs no square roots (`Backtracking`,
  `stepSizeDecay`), and over `ℝ` where it does (`Update`'s variance loop).
* The `while` loop of `Backtracking` is fuel-indexed and returns `none` when
  the fuel runs out, so a returned `some` value is exactly a run of the C++
  loop that exits.
* `std::isfinite(vNum / vDenom)` fails, in exact arithmetic, exactly when
  `vDenom = 0` (then the quotient is NaN or infinite); the embedding of the
  curvature guard branches on `vDenom = 0`.
-/

namespace Ens

/-- The objective-function collaborator (`DecomposableFunctionType`):
`Evaluate(iterate, offset, batchSize)`, `Gradient(iterate, offset, out,
batchSize)` (modelled as returning the gradient matrix), and
`NumFunctions()`. -/
structure ObjFun (α : Type) (n : ℕ) where
  Evaluate : (Fin n → α) → ℕ → ℕ → α
  Gradient : (Fin n → α) → ℕ → ℕ → (Fin n → α)
  NumFunctions : ℕ

variable {α : Type} [LinearOrderedField α] {n : ℕ}

/-- The `while` loop of `AdaptiveStepsize::Backtracking` (lines 205-217),
fuel-indexed.  `overallObjective` is the value computed once before the loop;
each round recomputes `iterateUpdate = iterate - stepSize * gradient` and
`overallObjectiveUpdate`, tests the sufficient-decrease condition, and on
failure executes `stepSize *= backtrackStepSize`. -/
def backtrackingLoop (f : ObjFun α n) (backtrackStepSize searchParameter : α)
    (iterate gradient : Fin n → α) (gradientNorm : α)
    (offset backtrackingBatchSize : ℕ) (overallObjective : α) :
    ℕ → α → Option α
  | 0, _ => none
  | fuel + 1, stepSize =>
    if f.Evaluate (iterate - stepSize • gradient) offset backtrackingBatchSize >
        overallObjective - searchParameter * stepSize * gradientNorm then
      backtrackingLoop f backtrackStepSize searchParameter iterate gradient
        gradientNorm offset backtrackingBatchSize overallObjective fuel
        (stepSize * backtrackStepSize)
    else
      some stepSize

/-- `AdaptiveStepsize::Backtracking` (lines 193-218): evaluates the objective
at `iterate` once, then runs the shrink loop on `stepSize`.  Returns the
accepted step size, or `none` if the loop has not exited within `fuel`
rounds. -/
def Backtracking (f : ObjFun α n) (backtrackStepSize searchParameter : α)
    (iterate gradient : Fin n → α) (gradientNorm : α)
    (offset backtrackingBatchSize fuel : ℕ) (stepSize : α) : Option α :=
  backtrackingLoop f backtrackStepSize searchParameter iterate gradient
    gradientNorm offset backtrackingBatchSize
    (f.Evaluate iterate offset backtrackingBatchSize) fuel stepSize

/-- `Backtracking` terminates on the given arguments: some finite fuel makes
the loop exit. -/
def BacktrackingTerminates (f : ObjFun α n) (backtrackStepSize searchParameter : α)
    (iterate gradient : Fin n → α) (gradientNorm : α)
    (offset backtrackingBatchSize : ℕ) (stepSize : α) : Prop :=
  ∃ fuel t, Backtracking f backtrackStepSize searchParameter iterate gradient
    gradientNorm offset backtrackingBatchSize fuel stepSize = some t

/-- The caller-visible state touched by `AdaptiveStepsize::Backtracking`: the
in/out reference `stepSize`, the const references `iterate`, `gradient`,
`gradientNorm`, and the data members `iteratePrev` (empty modelled as `none`),
`backtrackStepSize` and `searchParameter`. -/
structure BTState (α : Type) (n : ℕ) where
  stepSize : α
  iterate : Fin n → α
  gradient : Fin n → α
  gradientNorm : α
  iteratePrev : Option (Fin n → α)
  backtrackStepSize : α
  searchParameter : α

/-- The `Backtracking` shrink loop threading the full caller-visible state:
the only assignment the loop body performs on that state is
`stepSize *= backtrackStepSize` (line 212); `iterateUpdate` and the two
objective values are locals. -/
def backtrackingLoopS (f : ObjFun α n) (offset backtrackingBatchSize : ℕ)
    (overallObjective : α) : ℕ → BTState α n → Option (BTState α n)
  | 0, _ => none
  | fuel + 1, s =>
    if f.Evaluate (s.iterate - s.stepSize • s.gradient) offset backtrackingBatchSize >
        overallObjective - s.searchParameter * s.stepSize * s.gradientNorm then
      backtrackingLoopS f offset backtrackingBatchSize overallObjective fuel
        { s with stepSize := s.stepSize * s.backtrackStepSize }
    else
      some s

/-- `AdaptiveStepsize::Backtracking` as a transformer of the full
caller-visible state (lines 193-218). -/
def BacktrackingS (f : ObjFun α n) (offset backtrackingBatchSize fuel : ℕ)
    (s : BTState α n) : Option (BTState α n) :=
  backtrackingLoopS f offset backtrackingBatchSize
    (f.Evaluate s.iterate offset backtrackingBatchSize) fuel s

/-- The `stepSizeDecay` computation of `AdaptiveStepsize::Update`
(lines 146-158): `0` unless `gradientNorm && sampleVariance && batchSize && v`
(C++ truth test: all nonzero), then one closed form per regime, branching on
`batchSize < function.NumFunctions()`. -/
def stepSizeDecayCalc (gradientNorm sampleVariance : α) (batchSize : ℕ)
    (v : α) (numFunctions : ℕ) : α :=
  if gradientNorm ≠ 0 ∧ sampleVariance ≠ 0 ∧ batchSize ≠ 0 ∧ v ≠ 0 then
    if batchSize < numFunctions then
      (1 - (1 / ((batchSize : α) - 1) * sampleVariance) /
        ((batchSize : α) * gradientNorm)) / v
    else
      1 / v
  else 0

/-- The `stepSizeDecay` value as the specification words it: 0 unless
`gradientNorm`, `sampleVariance`, `batchSize`, and `v` are all nonzero; when
all nonzero and `batchSize < NumFunctions()` (mini-batch regime),
`(1 − (sampleVariance/(batchSize−1)) / (batchSize·gradientNorm)) / v`; when
`batchSize ≥ NumFunctions()` (full-batch regime), `1 / v`.  Stated from the
spec text, to be compared with `stepSizeDecayCalc`. -/
def stepSizeDecaySpec (gradientNorm sampleVariance : α) (batchSize : ℕ)
    (v : α) (numFunctions : ℕ) : α :=
  if gradientNorm = 0 ∨ sampleVariance = 0 ∨ batchSize = 0 ∨ v = 0 then 0
  else if batchSize < numFunctions then
    (1 - (sampleVariance / ((batchSize : α) - 1)) /
      ((batchSize : α) * gradientNorm)) / v
  else
    1 / v

/-- `arma::norm(x, 2)` of an n-by-1 column matrix: the Euclidean norm. -/
noncomputable def vecNorm (x : Fin n → ℝ) : ℝ :=
  Real.sqrt (∑ i, x i ^ 2)

/-- Elementwise division of a matrix by a scalar (`X / c`). -/
def vdiv (x : Fin n → α) (c : α) : Fin n → α :=
  fun i => x i / c

/-- `arma::trace(arma::trans(a) * b)` for n-by-1 column matrices: the dot
product. -/
def dotSum (x y : Fin n → α) : α :=
  ∑ i, x i * y i

/-- The running state of the variance/aggregation loop of
`AdaptiveStepsize::Update` (lines 110-125): the incremental mean `delta1`,
the accumulated `vB`, the running gradient sum `gradient`, and the running
sum `gradPrevIterate` of gradients at the previous iterate. -/
structure VarState (n : ℕ) where
  delta1 : Fin n → ℝ
  vB : ℝ
  gradient : Fin n → ℝ
  gradPrevIterate : Fin n → ℝ

/-- One round of the loop body (lines 112-124) at sample index `offset + j`;
the second counter `k` of the C++ loop always equals `j`. -/
noncomputable def varianceIter (f : ObjFun ℝ n) (iterate iteratePrev : Fin n → ℝ)
    (offset j : ℕ) (s : VarState n) : VarState n :=
  let functionGradient := f.Gradient iterate (offset + j) 1
  let delta0 := s.delta1 + vdiv (functionGradient - s.delta1) (j : ℝ)
  let vB := s.vB + vecNorm (functionGradient - s.delta1) *
      vecNorm (functionGradient - delta0)
  let functionGradientPrev := f.Gradient iteratePrev (offset + j) 1
  { delta1 := delta0
    vB := vB
    gradient := s.gradient + functionGradient
    gradPrevIterate := s.gradPrevIterate + functionGradientPrev }

/-- The loop `for (j = 1; j < backtrackingBatchSize; ++j)`: `count` rounds
remaining, `j` the current index. -/
noncomputable def varianceLoop (f : ObjFun ℝ n) (iterate iteratePrev : Fin n → ℝ)
    (offset : ℕ) : ℕ → ℕ → VarState n → VarState n
  | 0, _, s => s
  | count + 1, j, s =>
    varianceLoop f iterate iteratePrev offset count (j + 1)
      (varianceIter f iterate iteratePrev offset j s)

/-- The values written by `AdaptiveStepsize::Update` through its in/out
references (`stepSize`, `iterate`, `gradient`, `gradientNorm`,
`sampleVariance`) and into the data member `iteratePrev`, together with the
locals the specification talks about: `stepSize1` (the step size accepted by
the first `Backtracking` call), the curvature estimate `v`, `stepSizeDecay`,
and `blendedStepSize` (the step size after the smoothing at lines 161-162,
i.e. the input of the final `Backtracking` call). -/
structure UpdateResult (n : ℕ) where
  stepSize : ℝ
  iterate : Fin n → ℝ
  gradient : Fin n → ℝ
  gradientNorm : ℝ
  sampleVariance : ℝ
  iteratePrev : Fin n → ℝ
  stepSize1 : ℝ
  v : ℝ
  stepSizeDecay : ℝ
  blendedStepSize : ℝ

/-- `AdaptiveStepsize::Update` (lines 72-166).  `iteratePrev` is the data
member on entry (`none` models `is_empty()`, lazily replaced by a zero
matrix); the `reset` flag is accepted and, as in the source, never read.
Both `Backtracking` calls share the same fuel bound; `none` means one of them
has not exited within that bound. -/
noncomputable def Update (backtrackStepSize searchParameter : ℝ)
    (iteratePrev : Option (Fin n → ℝ)) (f : ObjFun ℝ n) (fuel : ℕ)
    (stepSize : ℝ) (iterate gradient : Fin n → ℝ)
    (gradientNorm sampleVariance : ℝ)
    (offset batchSize backtrackingBatchSize : ℕ) (reset : Bool) :
    Option (UpdateResult n) :=
  match Backtracking f backtrackStepSize searchParameter iterate gradient
      gradientNorm offset backtrackingBatchSize fuel stepSize with
  | none => none
  | some stepSize1 =>
    let iterate1 := iterate - stepSize1 • gradient
    let iteratePrev0 := iteratePrev.getD (fun _ => 0)
    let gradient0 := f.Gradient iterate1 offset 1
    let gradPrevIterate0 := f.Gradient iteratePrev0 offset 1
    let s := varianceLoop f iterate1 iteratePrev0 offset
        (backtrackingBatchSize - 1) 1
        { delta1 := gradient0
          vB := 0
          gradient := gradient0
          gradPrevIterate := gradPrevIterate0 }
    let sampleVariance1 := s.vB
    let gradientNorm1 := vecNorm (vdiv s.gradient (backtrackingBatchSize : ℝ)) ^ 2
    let vNum := dotSum (iterate1 - iteratePrev0) (s.gradient - s.gradPrevIterate)
    let vDenom := vecNorm (iterate1 - iteratePrev0) ^ 2
    let v := if vDenom = 0 then 0 else vNum / vDenom
    let decay := stepSizeDecayCalc gradientNorm1 sampleVariance1 batchSize v
        f.NumFunctions
    let blended := stepSize1 * (1 - (batchSize : ℝ) / (f.NumFunctions : ℝ)) +
        decay * ((batchSize : ℝ) / (f.NumFunctions : ℝ))
    match Backtracking f backtrackStepSize searchParameter iterate1 s.gradient
        gradientNorm1 offset backtrackingBatchSize fuel blended with
    | none => none
    | some stepSize2 =>
      some { stepSize := stepSize2
             iterate := iterate1
             gradient := s.gradient
             gradientNorm := gradientNorm1
             sampleVariance := sampleVariance1
             iteratePrev := iterate1
             stepSize1 := stepSize1
             v := v
             stepSizeDecay := decay
             blendedStepSize := blended }

/-! ### Concrete instances used as witnesses and counterexamples -/

/-- The spec's concrete scenario: `f(x) = x^2 / 2` replicated identically over
10 samples, so `Evaluate` and `Gradient` ignore the offset. -/
def quadObj : ObjFun ℚ 1 where
  Evaluate := fun x _ _ => x 0 ^ 2 / 2
  Gradient := fun x _ _ => x
  NumFunctions := 10

/-- A constant objective over one sample: every evaluation returns 0. -/
def constObj : ObjFun ℚ 1 where
  Evaluate := fun _ _ _ => 0
  Gradient := fun _ _ _ => fun _ => 0
  NumFunctions := 1

/-- The all-zero rational vector. -/
def q0 : Fin 1 → ℚ := fun _ => 0

/-- The all-one rational vector. -/
def q1 : Fin 1 → ℚ := fun _ => 1

/-- The all-ten rational vector. -/
def qTen : Fin 1 → ℚ := fun _ => 10

/-- A concrete caller state for the state-threaded `Backtracking`. -/
def frameProbe : BTState ℚ 1 where
  stepSize := 1
  iterate := fun _ => 10
  gradient := fun _ => 10
  gradientNorm := 100
  iteratePrev := none
  backtrackStepSize := 1/2
  searchParameter := 1/10

/-- The all-zero real vector. -/
def r0 : Fin 1 → ℝ := fun _ => 0

/-- The all-one real vector. -/
def r1 : Fin 1 → ℝ := fun _ => 1

/-- The all-two real vector. -/
def r2 : Fin 1 → ℝ := fun _ => 2

/-- The identically-zero objective over one sample. -/
def zeroObj : ObjFun ℝ 1 where
  Evaluate := fun _ _ _ => 0
  Gradient := fun _ _ _ => fun _ => 0
  NumFunctions := 1

/-- An objective whose value and gradient at `x` are `x` itself, over two
samples: after the first step drives the iterate to zero, both the gradient
and the curvature denominator vanish. -/
def idObj : ObjFun ℝ 1 where
  Evaluate := fun x _ _ => x 0
  Gradient := fun x _ _ => x
  NumFunctions := 2

/-- A piecewise objective value used to make the final `Backtracking` call of
`Update` reject the blended step size once. -/
noncomputable def pieceEv (t : ℝ) : ℝ :=
  if t = 2 then 2
  else if t = 1 then 1
  else if t = 1/2 then 1
  else if t = 3/4 then 9/10
  else 0

/-- Objective with value `pieceEv` and constant gradient one, over two
samples. -/
noncomputable def pieceObj : ObjFun ℝ 1 where
  Evaluate := fun x _ _ => pieceEv (x 0)
  Gradient := fun _ _ _ => fun _ => 1
  NumFunctions := 2

/-- Result of `Update` on `zeroObj` from the all-zero state. -/
noncomputable def zeroRes : UpdateResult 1 where
  stepSize := 0
  iterate := fun _ => 0
  gradient := fun _ => 0
  gradientNorm := 0
  sampleVariance := 0
  iteratePrev := fun _ => 0
  stepSize1 := 1
  v := 0
  stepSizeDecay := 0
  blendedStepSize := 0

/-- Result of `Update` on `idObj` with `batchSize = NumFunctions() = 2`: the
smoothing weight `1 - batchSize/NumFunctions()` vanishes and the returned
step size is exactly zero. -/
noncomputable def idRes : UpdateResult 1 where
  stepSize := 0
  iterate := fun _ => 0
  gradient := fun _ => 0
  gradientNorm := 0
  sampleVariance := 0
  iteratePrev := fun _ => 0
  stepSize1 := 1
  v := 0
  stepSizeDecay := 0
  blendedStepSize := 0

/-- Result of `Update` on `pieceObj`: the curvature estimate is zero, the
blended step size is `1/2`, and the final `Backtracking` call shrinks it once
more to `1/4`. -/
noncomputable def pieceRes : UpdateResult 1 where
  stepSize := 1/4
  iterate := fun _ => 1
  gradient := fun _ => 1
  gradientNorm := 1
  sampleVariance := 0
  iteratePrev := fun _ => 1
  stepSize1 := 1
  v := 0
  stepSizeDecay := 0
  blendedStepSize := 1/2

end Ens

namespace Ens

variable {α : Type} [LinearOrderedField α] {n : ℕ}

/-! ### Properties of the Backtracking shrink loop -/

/-- On exit, the loop's negated guard is the sufficient-decrease condition
relative to the objective value `obj0` computed before the loop. -/
theorem backtrackingLoop_decrease (f : ObjFun α n) (bt sp : α)
    (it g : Fin n → α) (gn : α) (off B : ℕ) (obj0 : α) (fuel : ℕ) :
    ∀ ss t : α, backtrackingLoop f bt sp it g gn off B obj0 fuel ss = some t →
      f.Evaluate (it - t • g) off B ≤ obj0 - sp * t * gn := by
  induction fuel with
  | zero => intro ss t h; simp [backtrackingLoop] at h
  | succ m ih =>
    intro ss t h
    simp only [backtrackingLoop] at h
    split_ifs at h with hc
    · exact ih (ss * bt) t h
    · obtain rfl : ss = t := by injection h
      exact not_lt.mp hc

/-- Every value the loop returns is the initial step size times a power of
the shrink factor: each rejected candidate is multiplied by exactly
`backtrackStepSize`. -/
theorem backtrackingLoop_geom (f : ObjFun α n) (bt sp : α)
    (it g : Fin n → α) (gn : α) (off B : ℕ) (obj0 : α) (fuel : ℕ) :
    ∀ ss t : α, backtrackingLoop f bt sp it g gn off B obj0 fuel ss = some t →
      ∃ k : ℕ, t = ss * bt ^ k := by
  induction fuel with
  | zero => intro ss t h; simp [backtrackingLoop] at h
  | succ m ih =>
    intro ss t h
    simp only [backtrackingLoop] at h
    split_ifs at h with hc
    · obtain ⟨k, hk⟩ := ih (ss * bt) t h
      exact ⟨k + 1, by rw [hk]; ring⟩
    · obtain rfl : ss = t := by injection h
      exact ⟨0, by rw [pow_zero, mul_one]⟩

/-- If the decrease test passes at candidate `ss * bt ^ k`, then fuel `k + 1`
suffices for the loop to exit. -/
theorem backtrackingLoop_reach (f : ObjFun α n) (bt sp : α)
    (it g : Fin n → α) (gn : α) (off B : ℕ) (obj0 : α) (k : ℕ) :
    ∀ ss : α,
      f.Evaluate (it - (ss * bt ^ k) • g) off B ≤ obj0 - sp * (ss * bt ^ k) * gn →
      (backtrackingLoop f bt sp it g gn off B obj0 (k + 1) ss).isSome = true := by
  induction k with
  | zero =>
    intro ss hpass
    rw [pow_zero, mul_one] at hpass
    rw [backtrackingLoop, if_neg (not_lt.mpr hpass)]
    rfl
  | succ m ih =>
    intro ss hpass
    rw [backtrackingLoop]
    by_cases hc : f.Evaluate (it - ss • g) off B > obj0 - sp * ss * gn
    · rw [if_pos hc]
      have hre : ss * bt ^ (m + 1) = ss * bt * bt ^ m := by ring
      rw [hre] at hpass
      exact ih (ss * bt) hpass
    · rw [if_neg hc]
      rfl

/-- The state-threaded loop only rewrites the `stepSize` field: it agrees
with the scalar loop via the obvious embedding. -/
theorem backtrackingLoopS_eq_loop (f : ObjFun α n) (off B : ℕ) (obj0 : α)
    (fuel : ℕ) :
    ∀ s : BTState α n,
      backtrackingLoopS f off B obj0 fuel s =
        (backtrackingLoop f s.backtrackStepSize s.searchParameter s.iterate
          s.gradient s.gradientNorm off B obj0 fuel s.stepSize).map
          (fun t => { s with stepSize := t }) := by
  induction fuel with
  | zero => intro s; rfl
  | succ m ih =>
    intro s
    simp only [backtrackingLoopS, backtrackingLoop]
    split_ifs with hc
    · rw [ih]
    · rfl

/-! ### Claims about Backtracking -/

/-- Claim C1: for every call to `Backtracking` that returns, the accepted
`stepSize` satisfies the sufficient-decrease condition
`Evaluate(iterate - stepSize*gradient, offset, backtrackingBatchSize) ≤
Evaluate(iterate, offset, backtrackingBatchSize) -
searchParameter*stepSize*gradientNorm` for the `iterate`, `gradient` and
`gradientNorm` passed in. -/
theorem backtracking_sufficient_decrease (f : ObjFun α n) (bt sp : α)
    (it g : Fin n → α) (gn : α) (off B fuel : ℕ) (ss t : α)
    (h : Backtracking f bt sp it g gn off B fuel ss = some t) :
    f.Evaluate (it - t • g) off B ≤ f.Evaluate it off B - sp * t * gn :=
  backtrackingLoop_decrease f bt sp it g gn off B _ fuel ss t h

/-- Witness for C1: the spec's concrete scenario (`iterate = 10`,
`stepSize = 1`, `gradientNorm = 100`) accepts immediately and satisfies the
decrease condition. -/
theorem backtracking_sufficient_decrease_witness :
    quadObj.Evaluate (qTen - (1 : ℚ) • qTen) 0 1 ≤
      quadObj.Evaluate qTen 0 1 - 1/10 * 1 * 100 :=
  backtracking_sufficient_decrease quadObj (1/2) (1/10) qTen qTen 100 0 1 1 1 1
    (by norm_num [Backtracking, backtrackingLoop, quadObj, qTen])

/-- Claim C3 (amended): `Backtracking` terminates exactly when some candidate
`stepSize * backtrackStepSize ^ k` passes the sufficient-decrease test; it is
not guaranteed to terminate on every precondition-satisfying input. -/
theorem backtracking_terminates_iff (f : ObjFun α n) (bt sp : α)
    (it g : Fin n → α) (gn : α) (off B : ℕ) (ss : α) :
    BacktrackingTerminates f bt sp it g gn off B ss ↔
      ∃ k : ℕ, f.Evaluate (it - (ss * bt ^ k) • g) off B ≤
        f.Evaluate it off B - sp * (ss * bt ^ k) * gn := by
  constructor
  · rintro ⟨fuel, t, h⟩
    rw [Backtracking] at h
    obtain ⟨k, hk⟩ := backtrackingLoop_geom f bt sp it g gn off B _ fuel ss t h
    subst hk
    exact ⟨k, backtrackingLoop_decrease f bt sp it g gn off B _ fuel ss _ h⟩
  · rintro ⟨k, hk⟩
    obtain ⟨t, ht⟩ := Option.isSome_iff_exists.mp
      (backtrackingLoop_reach f bt sp it g gn off B _ k ss hk)
    exact ⟨k + 1, t, ht⟩

/-- For the constant objective, every candidate fails the strict decrease
test (the right-hand side is strictly below the unchanged objective), so the
loop shrinks forever. -/
theorem constObj_loop_none (fuel : ℕ) :
    ∀ ss : ℚ, 0 < ss →
      backtrackingLoop constObj (1/2) (1/10) q0 q1 1 0 1 0 fuel ss = none := by
  induction fuel with
  | zero => intro ss _; rfl
  | succ m ih =>
    intro ss hss
    rw [backtrackingLoop, if_pos]
    · exact ih (ss * (1/2)) (by positivity)
    · have hev : constObj.Evaluate (q0 - ss • q1) 0 1 = 0 := rfl
      rw [gt_iff_lt, hev]
      linarith

/-- Counterexample to C3 as stated: a constant objective over one sample with
positive `gradientNorm` and positive initial `stepSize` meets every
precondition of the module, yet `Backtracking` never exits in exact
arithmetic. -/
theorem backtracking_nontermination_cex :
    ¬ BacktrackingTerminates constObj (1/2) (1/10) q0 q1 1 0 1 1 := by
  rintro ⟨fuel, t, h⟩
  rw [Backtracking] at h
  have h0 : constObj.Evaluate q0 0 1 = 0 := rfl
  rw [h0, constObj_loop_none fuel 1 one_pos] at h
  exact Option.noConfusion h

/-- Claim C5: with `backtrackStepSize` in `(0,1)` and positive initial
`stepSize`, every value `Backtracking` returns is strictly positive (and
since the theorem quantifies over the loop entry state, the same statement
covers every intermediate candidate). -/
theorem backtracking_stepsize_pos (f : ObjFun α n) (bt sp : α)
    (it g : Fin n → α) (gn : α) (off B fuel : ℕ) (ss t : α)
    (hbt0 : 0 < bt) (hbt1 : bt < 1) (hss : 0 < ss)
    (h : Backtracking f bt sp it g gn off B fuel ss = some t) : 0 < t := by
  obtain ⟨k, hk⟩ := backtrackingLoop_geom f bt sp it g gn off B _ fuel ss t h
  rw [hk]
  exact mul_pos hss (pow_pos hbt0 k)

/-- Witness for C5: starting from `stepSize = 2` the scenario objective
shrinks once and returns `1 > 0`. -/
theorem backtracking_stepsize_pos_witness : (0 : ℚ) < 1 :=
  backtracking_stepsize_pos quadObj (1/2) (1/10) qTen qTen
    100 0 1 2 2 1 (by norm_num) (by norm_num) (by norm_num)
    (by norm_num [Backtracking, backtrackingLoop, quadObj, qTen])

/-- Claim C7: `Backtracking` never increases the step size; the accepted
value is the initial `stepSize` times `backtrackStepSize ^ k` where `k` is
the number of rejected candidates (each rejected candidate is exactly
`backtrackStepSize` times the previous one), hence at most `stepSize`. -/
theorem backtracking_monotone_shrink (f : ObjFun α n) (bt sp : α)
    (it g : Fin n → α) (gn : α) (off B fuel : ℕ) (ss t : α)
    (hbt0 : 0 < bt) (hbt1 : bt < 1) (hss : 0 < ss)
    (h : Backtracking f bt sp it g gn off B fuel ss = some t) :
    ∃ k : ℕ, t = ss * bt ^ k ∧ t ≤ ss := by
  obtain ⟨k, hk⟩ := backtrackingLoop_geom f bt sp it g gn off B _ fuel ss t h
  refine ⟨k, hk, ?_⟩
  rw [hk]
  calc ss * bt ^ k ≤ ss * 1 :=
        mul_le_mul_of_nonneg_left (pow_le_one₀ hbt0.le hbt1.le) hss.le
    _ = ss := mul_one ss

/-- Witness for C7: from `stepSize = 4` the scenario objective rejects twice
and accepts `1 = 4 * (1/2)^2 ≤ 4`. -/
theorem backtracking_monotone_shrink_witness :
    ∃ k : ℕ, (1 : ℚ) = 4 * (1/2) ^ k ∧ (1 : ℚ) ≤ 4 :=
  backtracking_monotone_shrink quadObj (1/2) (1/10) qTen qTen
    100 0 1 3 4 1 (by norm_num) (by norm_num) (by norm_num)
    (by norm_num [Backtracking, backtrackingLoop, quadObj, qTen])

/-- Claim C10: `Backtracking` mutates only `stepSize`: on return the
`iterate`, `gradient` and `gradientNorm` arguments and the controller's
persisted `iteratePrev`, `backtrackStepSize` and `searchParameter` are
unchanged. -/
theorem backtracking_frame (f : ObjFun α n) (off B fuel : ℕ)
    (s t : BTState α n) (h : BacktrackingS f off B fuel s = some t) :
    t.iterate = s.iterate ∧ t.gradient = s.gradient ∧
    t.gradientNorm = s.gradientNorm ∧ t.iteratePrev = s.iteratePrev ∧
    t.backtrackStepSize = s.backtrackStepSize ∧
    t.searchParameter = s.searchParameter := by
  rw [BacktrackingS, backtrackingLoopS_eq_loop] at h
  obtain ⟨u, hu, rfl⟩ := Option.map_eq_some'.mp h
  exact ⟨rfl, rfl, rfl, rfl, rfl, rfl⟩

/-- Witness for C10: a concrete caller state accepted on the first test. -/
theorem backtracking_frame_witness :
    frameProbe.iterate = frameProbe.iterate ∧
    frameProbe.gradient = frameProbe.gradient ∧
    frameProbe.gradientNorm = frameProbe.gradientNorm ∧
    frameProbe.iteratePrev = frameProbe.iteratePrev ∧
    frameProbe.backtrackStepSize = frameProbe.backtrackStepSize ∧
    frameProbe.searchParameter = frameProbe.searchParameter :=
  backtracking_frame quadObj 0 1 1 frameProbe frameProbe
    (by norm_num [BacktrackingS, backtrackingLoopS, quadObj, frameProbe])

/-! ### Claims about Update -/

/-- The Euclidean norm of a column matrix is nonnegative. -/
theorem vecNorm_nonneg (x : Fin n → ℝ) : 0 ≤ vecNorm x :=
  Real.sqrt_nonneg _

/-- Each round of the variance loop adds a product of two norms to `vB`, so
a nonnegative `vB` stays nonnegative. -/
theorem varianceLoop_vB_nonneg (f : ObjFun ℝ n) (it ip : Fin n → ℝ)
    (off count : ℕ) :
    ∀ (j : ℕ) (s : VarState n), 0 ≤ s.vB →
      0 ≤ (varianceLoop f it ip off count j s).vB := by
  induction count with
  | zero => intro j s hs; exact hs
  | succ m ih =>
    intro j s hs
    refine ih (j + 1) (varianceIter f it ip off j s) ?_
    simp only [varianceIter]
    exact add_nonneg hs (mul_nonneg (vecNorm_nonneg _) (vecNorm_nonneg _))

/-- The decay expression of lines 151-152 agrees, as written, with the
closed forms the specification gives for both regimes. -/
theorem stepSizeDecayCalc_eq_spec (gn sv v : α) (b N : ℕ) :
    stepSizeDecayCalc gn sv b v N = stepSizeDecaySpec gn sv b v N := by
  unfold stepSizeDecayCalc stepSizeDecaySpec
  by_cases hall : gn ≠ 0 ∧ sv ≠ 0 ∧ b ≠ 0 ∧ v ≠ 0
  · rw [if_pos hall, if_neg (show ¬(gn = 0 ∨ sv = 0 ∨ b = 0 ∨ v = 0) by
      tauto)]
    split_ifs with h5
    · ring
    · rfl
  · rw [if_neg hall, if_pos (show gn = 0 ∨ sv = 0 ∨ b = 0 ∨ v = 0 by tauto)]

/-- Evaluation of `Update` on the identically-zero objective from the
all-zero state: both line searches accept at once and every output is
zero except the first accepted step size. -/
theorem zeroRun_eq :
    Update (1/2) (1/10) none zeroObj 1 1 r0 r0 0 0 0 1 1 false =
      some zeroRes := by
  norm_num [Update, Backtracking, backtrackingLoop, varianceLoop, zeroObj,
    zeroRes, r0, vecNorm, vdiv, dotSum, stepSizeDecayCalc, Fin.sum_univ_one,
    Option.getD_none, UpdateResult.mk.injEq, funext_iff, Pi.sub_apply,
    Pi.smul_apply, smul_eq_mul, Real.sqrt_zero, Fin.forall_fin_one]

/-- Claim C2: the `stepSizeDecay` computed inside `Update` equals the value
the specification describes for the `gradientNorm`, `sampleVariance` and `v`
values of that call: 0 unless `gradientNorm`, `sampleVariance`, `batchSize`
and `v` are all nonzero; when all nonzero,
`(1 - (sampleVariance/(batchSize-1))/(batchSize*gradientNorm))/v` in the
mini-batch regime `batchSize < NumFunctions()`, and `1/v` in the full-batch
regime `batchSize ≥ NumFunctions()`. -/
theorem update_stepSizeDecay_formula (bt sp : ℝ) (prev : Option (Fin n → ℝ))
    (f : ObjFun ℝ n) (fuel : ℕ) (ss : ℝ) (it g : Fin n → ℝ) (gn sv : ℝ)
    (off b B : ℕ) (re : Bool) (res : UpdateResult n)
    (h : Update bt sp prev f fuel ss it g gn sv off b B re = some res) :
    res.stepSizeDecay = stepSizeDecaySpec res.gradientNorm res.sampleVariance
      b res.v f.NumFunctions := by
  simp only [Update] at h
  split at h
  · exact absurd h (by simp)
  · split at h
    · exact absurd h (by simp)
    · obtain rfl : _ = res := Option.some.inj h
      exact stepSizeDecayCalc_eq_spec _ _ _ _ _

/-- Witness for C2: the concrete zero run has `stepSizeDecay = 0`, matching
the spec's formula at `gradientNorm = 0`. -/
theorem update_stepSizeDecay_formula_witness :
    zeroRes.stepSizeDecay = stepSizeDecaySpec zeroRes.gradientNorm
      zeroRes.sampleVariance 1 zeroRes.v zeroObj.NumFunctions :=
  update_stepSizeDecay_formula (1/2) (1/10) none zeroObj 1 1 r0 r0 0 0 0 1 1
    false zeroRes zeroRun_eq

/-- Claim C6: the `sampleVariance` written by `Update` is nonnegative for
every objective and every input, because the loop accumulates only products
of two vector norms starting from zero. -/
theorem update_sampleVariance_nonneg (bt sp : ℝ) (prev : Option (Fin n → ℝ))
    (f : ObjFun ℝ n) (fuel : ℕ) (ss : ℝ) (it g : Fin n → ℝ) (gn sv : ℝ)
    (off b B : ℕ) (re : Bool) (res : UpdateResult n)
    (h : Update bt sp prev f fuel ss it g gn sv off b B re = some res) :
    0 ≤ res.sampleVariance := by
  simp only [Update] at h
  split at h
  · exact absurd h (by simp)
  · split at h
    · exact absurd h (by simp)
    · obtain rfl : _ = res := Option.some.inj h
      exact varianceLoop_vB_nonneg f _ _ off _ 1 _ le_rfl

/-- Witness for C6: the concrete zero run produces `sampleVariance = 0 ≥ 0`. -/
theorem update_sampleVariance_nonneg_witness : 0 ≤ zeroRes.sampleVariance :=
  update_sampleVariance_nonneg (1/2) (1/10) none zeroObj 1 1 r0 r0 0 0 0 1 1
    false zeroRes zeroRun_eq

/-- Claim C8: the boolean `reset` parameter of `Update` has no observable
effect: two calls differing only in `reset` return identical results. -/
theorem update_reset_irrelevant (bt sp : ℝ) (prev : Option (Fin n → ℝ))
    (f : ObjFun ℝ n) (fuel : ℕ) (ss : ℝ) (it g : Fin n → ℝ) (gn sv : ℝ)
    (off b B : ℕ) (reset1 reset2 : Bool) :
    Update bt sp prev f fuel ss it g gn sv off b B reset1 =
      Update bt sp prev f fuel ss it g gn sv off b B reset2 := rfl

/-- Evaluation of `Update` on `idObj` with `batchSize = NumFunctions() = 2`:
the first line search accepts `stepSize = 1`, the step drives the iterate to
zero, the forced curvature is zero, the blended step size is zero, and the
final line search accepts it unchanged. -/
theorem idRun_eq :
    Update (1/2) (1/10) none idObj 3 1 r1 r1 0 0 0 2 1 false =
      some idRes := by
  norm_num [Update, Backtracking, backtrackingLoop, varianceLoop, idObj,
    idRes, r1, vecNorm, vdiv, dotSum, stepSizeDecayCalc, Fin.sum_univ_one,
    Option.getD_none, UpdateResult.mk.injEq, funext_iff, Pi.sub_apply,
    Pi.smul_apply, smul_eq_mul, Real.sqrt_zero, Real.sqrt_one,
    Fin.forall_fin_one]

/-- Claim C9: on a valid input with `batchSize` equal to `NumFunctions()` and
forced zero curvature, the blending step sets the step size to exactly zero
and the final `Backtracking` accepts it unchanged, because the strict
decrease test fails when both sides are equal; `Update` therefore returns
`stepSize = 0`. -/
theorem update_full_batch_zero_stepsize :
    idObj.NumFunctions = 2 ∧
    Update (1/2) (1/10) none idObj 3 1 r1 r1 0 0 0 2 1 false = some idRes ∧
    idRes.v = 0 ∧ idRes.blendedStepSize = 0 ∧ idRes.stepSize = 0 :=
  ⟨rfl, idRun_eq, rfl, rfl, rfl⟩

/-- Evaluation of `Update` on `pieceObj`: the first line search accepts
`stepSize = 1`, the computed curvature is zero, the blended step size is
`1/2`, and the final line search rejects `1/2` once and accepts `1/4`. -/
theorem pieceRun_eq :
    Update (1/2) (1/10) none pieceObj 3 1 r2 r1 0 0 0 1 1 false =
      some pieceRes := by
  norm_num [Update, Backtracking, backtrackingLoop, varianceLoop, pieceObj,
    pieceEv, pieceRes, r2, r1, vecNorm, vdiv, dotSum, stepSizeDecayCalc,
    Fin.sum_univ_one, Option.getD_none, UpdateResult.mk.injEq, funext_iff,
    Pi.sub_apply, Pi.smul_apply, smul_eq_mul, Real.sqrt_zero, Real.sqrt_one,
    Fin.forall_fin_one]

/-- Counterexample to C4 as stated: on `pieceObj` the curvature estimate is
zero, yet the step size produced by `Update` is `1/4`, not the blended value
`stepSize1 * (1 - batchSize/NumFunctions()) = 1/2`, because the final
`Backtracking` call shrinks the blended value once more. -/
theorem update_zero_curvature_cex :
    Update (1/2) (1/10) none pieceObj 3 1 r2 r1 0 0 0 1 1 false =
        some pieceRes ∧
    pieceRes.v = 0 ∧
    pieceRes.stepSize ≠
      pieceRes.stepSize1 * (1 - (1 : ℝ) / (pieceObj.NumFunctions : ℝ)) :=
  ⟨pieceRun_eq, rfl, by norm_num [pieceRes, pieceObj]⟩

/-- Claim C4 (amended): when the curvature estimate `v` is zero (forced or
computed), the decay term contributes 0, so the blended step size entering
the final `Backtracking` call equals exactly
`stepSize1 * (1 - batchSize/NumFunctions())`; the step size `Update` returns
is the result of running `Backtracking` on that blended value (which may
shrink it further). -/
theorem update_zero_curvature_blend (bt sp : ℝ) (prev : Option (Fin n → ℝ))
    (f : ObjFun ℝ n) (fuel : ℕ) (ss : ℝ) (it g : Fin n → ℝ) (gn sv : ℝ)
    (off b B : ℕ) (re : Bool) (res : UpdateResult n)
    (h : Update bt sp prev f fuel ss it g gn sv off b B re = some res)
    (hv : res.v = 0) :
    res.blendedStepSize =
      res.stepSize1 * (1 - (b : ℝ) / (f.NumFunctions : ℝ)) ∧
    Backtracking f bt sp res.iterate res.gradient res.gradientNorm off B fuel
      res.blendedStepSize = some res.stepSize := by
  simp only [Update] at h
  split at h
  · exact absurd h (by simp)
  · rename_i stepSize1 heq1
    split at h
    · exact absurd h (by simp)
    · rename_i stepSize2 heq2
      obtain rfl : _ = res := Option.some.inj h
      refine ⟨?_, heq2⟩
      simp only at hv ⊢
      rw [hv]
      simp [stepSizeDecayCalc]

/-- Witness for the amended C4: on the concrete `pieceObj` run the blended
step size is `1 * (1 - 1/2) = 1/2` and the returned step size is the result
of backtracking from `1/2`. -/
theorem update_zero_curvature_blend_witness :
    pieceRes.blendedStepSize =
      pieceRes.stepSize1 * (1 - ((1 : ℕ) : ℝ) / (pieceObj.NumFunctions : ℝ)) ∧
    Backtracking pieceObj (1/2) (1/10) pieceRes.iterate pieceRes.gradient
      pieceRes.gradientNorm 0 1 3 pieceRes.blendedStepSize =
        some pieceRes.stepSize :=
  update_zero_curvature_blend (1/2) (1/10) none pieceObj 3 1 r2 r1 0 0 0 1 1
    false pieceRes pieceRun_eq rfl

end Ens
